import Mathlib

set_option maxRecDepth 8000
set_option maxHeartbeats 1000000

/-!
Verification development for the marketing analytics team workflow: a
shallow embedding of the orchestration core (supervisor routing, the SQL
plan-validate-execute pipeline with its clarification protocol, and the
surrounding LangGraph wiring), together with proofs of stated properties.
LLM calls, the SQLite store, and chart rendering are external boundaries;
their outputs enter the model as explicit oracle parameters.
-/

/-- Python whitespace characters: the default class of str.strip and the
regex whitespace class, restricted to the ASCII text this system handles. -/
def pyWs (c : Char) : Bool :=
  c = ' ' || c = '\t' || c = '\n' || c = '\r' || c = '\x0b' || c = '\x0c'

/-- Lowercased character sequence of a string (Python str.lower on ASCII). -/
def low (s : String) : List Char := s.data.map Char.toLower

/-- Uppercased character sequence of a string (Python str.upper on ASCII). -/
def up (s : String) : List Char := s.data.map Char.toUpper

/-- Python substring containment: the `in` operator on str. -/
def containsSub (pat : List Char) : List Char → Bool
  | [] => pat.isEmpty
  | c :: rest => pat.isPrefixOf (c :: rest) || containsSub pat rest

/-- Python str.count, fueled for structural recursion: on every step the
scanned list shrinks by at least one while the fuel shrinks by exactly
one, so fuel equal to the length never runs out. -/
def countSubAux (pat : List Char) : Nat → List Char → Nat
  | _, [] => 0
  | 0, _ => 0
  | fuel + 1, c :: rest =>
    if (!pat.isEmpty) && pat.isPrefixOf (c :: rest) then
      1 + countSubAux pat fuel (rest.drop (pat.length - 1))
    else
      countSubAux pat fuel rest

/-- Python str.count: non-overlapping occurrences, scanning left to right. -/
def countSub (pat l : List Char) : Nat := countSubAux pat l.length l

/-- Python str.replace with the empty replacement, fueled likewise. -/
def removeSubAux (pat : List Char) : Nat → List Char → List Char
  | _, [] => []
  | 0, l => l
  | fuel + 1, c :: rest =>
    if (!pat.isEmpty) && pat.isPrefixOf (c :: rest) then
      removeSubAux pat fuel (rest.drop (pat.length - 1))
    else
      c :: removeSubAux pat fuel rest

/-- Python str.replace with the empty replacement: removal of every
non-overlapping occurrence, scanning left to right. -/
def removeSub (pat l : List Char) : List Char := removeSubAux pat l.length l

/-- Python str.strip on a character sequence. -/
def pyStrip (l : List Char) : List Char :=
  ((l.dropWhile pyWs).reverse.dropWhile pyWs).reverse

/-- Python str.strip. -/
def pyStripStr (s : String) : String := ⟨pyStrip s.data⟩

/-- Python truthiness of an optional string: None and "" are falsy. -/
def pyTruthy : Option String → Bool
  | none => false
  | some s => !s.data.isEmpty

/-- Index of the first semicolon at or after a start position. -/
def firstSemiFrom (cs : List Char) (start : Nat) : Option Nat :=
  ((cs.drop start).findIdx? (fun c => c == ';')).map (· + start)

/-- One attempted match, at position i, of the regex SELECT-whitespace-
lazy-any-semicolon with IGNORECASE and DOTALL: the engine matches at i
exactly when SELECT (case-insensitive) sits at i, a whitespace character
follows it, and some semicolon occurs at index at least i+8 (one
whitespace and one arbitrary character are consumed before it); the
reported group then extends to the first such semicolon. -/
def selectMatchAt (cs : List Char) (i : Nat) : Option (List Char) :=
  if ((cs.drop i).take 6).map Char.toUpper = ("SELECT").data then
    match cs.get? (i + 6) with
    | some c =>
      if pyWs c then
        match firstSemiFrom cs (i + 8) with
        | some p => some ((cs.drop i).take (p - i + 1))
        | none => none
      else none
    | none => none
  else none

/-- Leftmost regex match: re.search tries start positions left to right. -/
def regexSearchSelect (cs : List Char) : Option (List Char) :=
  (List.range cs.length).findSome? (selectMatchAt cs)

/-- Extraction of the SQL statement from the generation output: regex
search for a SELECT statement ending in a semicolon, fallback on an
uppercased prefix check with split on the first semicolon, then removal
of markdown fences and stripping. -/
def extract_sql (sql_text : String) : String :=
  let cs := sql_text.data
  let sql_query :=
    match regexSearchSelect cs with
    | some m => pyStrip m
    | none =>
      if ("SELECT").data.isPrefixOf (cs.map Char.toUpper) then
        pyStrip (cs.takeWhile (fun c => c != ';')) ++ [';']
      else cs
  ⟨pyStrip (removeSub (("```").data) (removeSub (("```sql").data) sql_query))⟩

/-- A role-tagged entry of the message log. -/
inductive Msg where
  | human (content : String)
  | ai (content : String)
  | sysm (content : String)
deriving DecidableEq, Repr

/-- The question text the agents extract: content of the first human
message of the log, empty when the log holds none. -/
def firstHuman : List Msg → String
  | [] => ""
  | Msg.human c :: _ => c
  | _ :: rest => firstHuman rest

/-- A scalar cell value of a result row. -/
inductive JVal where
  | s (v : String)
  | n (v : Int)
deriving DecidableEq, Repr

/-- One record of a query result: column names paired with cell values. -/
abbrev Row := List (String × JVal)

/-- JSON rendering of one cell value. -/
def jsonVal : JVal → List Char
  | JVal.s v => '"' :: v.data ++ ['"']
  | JVal.n v => (toString v).data

/-- JSON rendering of one column of a record. -/
def jsonField : String × JVal → List Char
  | (k, v) => '"' :: k.data ++ ['"', ':'] ++ jsonVal v

/-- JSON rendering of one record. -/
def jsonRow (r : Row) : List Char :=
  '\x7b' :: List.intercalate ([','] : List Char) (r.map jsonField) ++ ['\x7d']

/-- Serialization of the full row set (DataFrame.to_json, records
orientation): always a bracketed, hence non-empty, string. -/
def serializeRows (rows : List Row) : String :=
  ⟨'[' :: List.intercalate ([','] : List Char) (rows.map jsonRow) ++ [']']⟩

/-- One rendered table line of the preview. -/
def rowCells (r : Row) : String :=
  String.intercalate (" | ") (r.map fun kv =>
    match kv.2 with
    | JVal.s v => v
    | JVal.n v => toString v)

/-- Textual table preview (rendering of DataFrame.head(15).to_markdown). -/
def rowsMarkdown : List Row → String
  | [] => ""
  | r :: rest =>
    "| " ++ String.intercalate (" | ") (r.map Prod.fst) ++ " |\n|---|\n" ++
      String.intercalate ("\n") ((r :: rest).map fun row => "| " ++ rowCells row ++ " |")

/-- Shared session state threaded through the workflow (AgentState). -/
structure State where
  messages : List Msg
  next_agent : Option String
  leads_data : Option String
  product_info : Option String
  segment_analysis : Option String
  email_draft : Option String
  sql_plan : Option String
  sql_query : Option String
  sql_validation_error : Option String
  needs_visualization : Bool
  needs_clarification : Bool
  clarification_question : Option String
  clarification_options : Option (List String)
  user_clarification : Option String
  is_complete : Bool
  current_step : Nat
  completed_agents : List String
deriving DecidableEq, Repr

/-- A partial state update returned by one node. A field holding none is
a key absent from the returned dict, left unchanged by the merge; the
messages field is appended by the add_messages reducer. -/
structure Update where
  messages : List Msg := []
  next_agent : Option (Option String) := none
  leads_data : Option (Option String) := none
  product_info : Option (Option String) := none
  segment_analysis : Option (Option String) := none
  email_draft : Option (Option String) := none
  sql_plan : Option (Option String) := none
  sql_query : Option (Option String) := none
  sql_validation_error : Option (Option String) := none
  needs_visualization : Option Bool := none
  needs_clarification : Option Bool := none
  clarification_question : Option (Option String) := none
  clarification_options : Option (Option (List String)) := none
  user_clarification : Option (Option String) := none
  is_complete : Option Bool := none
  current_step : Option Nat := none
  completed_agents : Option (List String) := none
deriving DecidableEq, Repr

/-- LangGraph merge of one node update into the state. -/
def applyUpdate (s : State) (u : Update) : State where
  messages := s.messages ++ u.messages
  next_agent := u.next_agent.getD s.next_agent
  leads_data := u.leads_data.getD s.leads_data
  product_info := u.product_info.getD s.product_info
  segment_analysis := u.segment_analysis.getD s.segment_analysis
  email_draft := u.email_draft.getD s.email_draft
  sql_plan := u.sql_plan.getD s.sql_plan
  sql_query := u.sql_query.getD s.sql_query
  sql_validation_error := u.sql_validation_error.getD s.sql_validation_error
  needs_visualization := u.needs_visualization.getD s.needs_visualization
  needs_clarification := u.needs_clarification.getD s.needs_clarification
  clarification_question := u.clarification_question.getD s.clarification_question
  clarification_options := u.clarification_options.getD s.clarification_options
  user_clarification := u.user_clarification.getD s.user_clarification
  is_complete := u.is_complete.getD s.is_complete
  current_step := u.current_step.getD s.current_step
  completed_agents := u.completed_agents.getD s.completed_agents

/-- Outcome of running a query at the data store boundary. -/
inductive ExecResult where
  | ok (rows : List Row)
  | error (msg : String)

/-- The fixed column list of the one allowed table, joined for display. -/
def schemaColumns : String :=
  "customer_id, Segment, engagement_score, TotalVisits, Total_Time_Spent_on_Website, Page_Views_Per_Visit, Converted, Lead_Source, Lead_Origin, Country, City, Specialization, Occupation, Last_Activity"

/-- Indicator phrases of off-domain web content in an LLM response. -/
def webIndicators : List String :=
  ["based on the web", "according to", "search results", "i found",
   "from the web", "online sources", "wikipedia", "google", "based on my search"]

/-- Indicator phrases of gaming or sports confusion in an LLM response. -/
def gamingIndicators : List String :=
  ["league of legends", "lol champions", "esports", "game", "player",
   "team", "tournament", "sports"]

/-- The keywords whose absence marks a long response as non-SQL output. -/
def sqlHintKeywords : List String := ["SELECT", "FROM", "CANNOT_ANSWER"]

/-- Screening of an LLM response for the three failure classes: web
content, gaming or sports confusion, and long non-SQL output; each
indicator loop returns one fixed classification on its first hit. -/
def detect_invalid_response (response : String) : Bool × String :=
  let response_lower := low response
  if webIndicators.any (fun ind => containsSub ind.data response_lower) then
    (true, "web_search")
  else if gamingIndicators.any (fun ind => containsSub ind.data response_lower) then
    (true, "gaming_confusion")
  else if (!sqlHintKeywords.any (fun kw => containsSub kw.data (up response)))
      && 100 < response.data.length then
    (true, "not_sql")
  else
    (false, "")

/-- Validation of generated SQL against the schema: rejects a WITH clause
combined with AS, more than one SELECT keyword, any JOIN keyword, or a
missing reference to the leadscored table; returns the validity flag and
the message of the first violated rule. -/
def validate_sql (sql : String) : Bool × String :=
  let sql_upper := up sql
  if containsSub (("WITH ").data) sql_upper && containsSub ((" AS ").data) sql_upper then
    (false, "CTEs (WITH clauses) are not allowed. Use simple SELECT.")
  else if 1 < countSub (("SELECT").data) sql_upper then
    (false, "Subqueries are not allowed. Use simple SELECT.")
  else if containsSub (("JOIN").data) sql_upper then
    (false, "JOINs are not allowed. Only the leadscored table is available.")
  else if !containsSub (("leadscored").data) (low sql) then
    (false, "Invalid table. Only leadscored table exists.")
  else
    (true, "")

/-- The keywords of the SQL agent that mark a visualization request. -/
def vizKeywordsSql : List String :=
  ["chart", "pie", "bar", "graph", "plot", "visualiz", "distribution"]

/-- The working input of the pipeline: the first human message, with the
chosen clarification appended as an explicit annotation when present. -/
def sqlWorkingInput (s : State) : String :=
  let q := firstHuman s.messages
  if pyTruthy s.user_clarification then
    q ++ " (User clarified: " ++ s.user_clarification.getD ("") ++ ")"
  else q

/-- Clarification update of the gaming-confusion escalation. -/
def gamingClarUpdate : Update :=
  { messages := [Msg.ai ("[SQL Agent]\nClarification Needed\n\nI noticed you mentioned Champions. In our database, this refers to a customer segment, not gaming/sports.\n\nDid you mean:\n- Option A: Champions customer segment (high-value customers)\n- Option B: Something else\n\nPlease select an option or rephrase your question.")],
    needs_clarification := some true,
    clarification_question := some (some ("Which Champions did you mean?")),
    clarification_options := some (some ["Champions customer segment", "Something else - let me rephrase"]),
    is_complete := some false }

/-- Clarification update of the web-search escalation. -/
def webClarUpdate : Update :=
  { messages := [Msg.ai ("[SQL Agent]\nClarification Needed\n\nI was about to search the web, but I should only query our database.\n\nCould you rephrase your question to ask about:\n- Customer segments (Champions, At Risk, etc.)\n- Lead sources, countries, occupations\n- Engagement scores, conversions\n\nWhat specific data would you like from our leads database?")],
    needs_clarification := some true,
    clarification_question := some (some ("What database information do you need?")),
    clarification_options := some (some ["Show segment distribution", "List top customers", "Let me rephrase"]),
    is_complete := some false }

/-- Clarification update of the non-SQL escalation. -/
def notSqlClarUpdate : Update :=
  { messages := [Msg.ai ("[SQL Agent]\nClarification Needed\n\nI am not sure how to answer this with our database.\n\nAvailable data:\n- Customer segments: Champions, Highly Engaged, Potential Loyalists, At Risk, Low Value\n- Columns: Country, City, Occupation, Lead_Source, engagement_score, Converted\n\nCould you rephrase your question?")],
    needs_clarification := some true,
    clarification_question := some (some ("Please rephrase your question")),
    clarification_options := some (some ["Show all segments", "Show top customers", "Cancel"]),
    is_complete := some false }

/-- Terminal update when the plan declares the request unanswerable. -/
def cannotAnswerUpdate (plan : String) (needs_viz : Bool) : Update :=
  { messages := [Msg.ai ("[SQL Agent]\n" ++ plan ++ "\n\nAvailable columns: " ++ schemaColumns)],
    sql_plan := some (some plan),
    leads_data := some none,
    needs_visualization := some needs_viz,
    needs_clarification := some false,
    is_complete := some true }

/-- Clarification update when SQL generation itself is screened invalid. -/
def genFailUpdate : Update :=
  { messages := [Msg.ai ("[SQL Agent]\nClarification Needed\n\nI could not generate a valid SQL query for your request.\n\nPlease try asking about:\n- Segment counts or distributions\n- Top customers by engagement\n- Lead source breakdown\n- Country/city statistics")],
    needs_clarification := some true,
    clarification_question := some (some ("What would you like to query?")),
    clarification_options := some (some ["Show segment counts", "Show top 20 Champions", "Show lead sources"]),
    is_complete := some false }

/-- Clarification update on a validation rejection: reports the specific
violated rule and the attempted SQL, and executes nothing. -/
def validationFailUpdate (plan sql_query validation_error : String) (needs_viz : Bool) : Update :=
  { messages := [Msg.ai ("[SQL Agent]\nSQL Validation Failed:\n" ++ validation_error ++ "\n\nAttempted SQL:\n```sql\n" ++ sql_query ++ "\n```\n\nWould you like to try a simpler query?")],
    sql_plan := some (some plan),
    sql_query := some (some sql_query),
    sql_validation_error := some (some validation_error),
    needs_clarification := some true,
    clarification_question := some (some ("Try a simpler query?")),
    clarification_options := some (some ["Show all segments", "Show top 10 customers", "Cancel"]),
    leads_data := some none,
    needs_visualization := some needs_viz,
    is_complete := some false }

/-- Clarification update on a storage-layer execution error. -/
def execErrorUpdate (plan sql_query error_msg : String) (needs_viz : Bool) : Update :=
  { messages := [Msg.ai ("[SQL Agent]\nPlan: " ++ plan ++ "\n\nSQL:\n```sql\n" ++ sql_query ++ "\n```\n\nExecution Error: " ++ error_msg ++ "\n\nWould you like to try a different query?")],
    sql_plan := some (some plan),
    sql_query := some (some sql_query),
    needs_clarification := some true,
    clarification_question := some (some ("Query failed. Try another?")),
    clarification_options := some (some ["Show segment counts", "Show top customers", "Cancel"]),
    leads_data := some none,
    needs_visualization := some needs_viz,
    is_complete := some false }

/-- Final update after execution: zero rows report no data and serialize
nothing; otherwise the rows are previewed and serialized for downstream
responders. Either way the turn stays open for further processing. -/
def successUpdate (plan sql_query : String) (rows : List Row) (needs_viz : Bool) : Update :=
  if rows.length = 0 then
    { messages := [Msg.ai ("[SQL Agent]\nPlan: " ++ plan ++ "\n\nSQL:\n```sql\n" ++ sql_query ++ "\n```\n\nResult: No data found.")],
      sql_plan := some (some plan),
      sql_query := some (some sql_query),
      leads_data := some none,
      needs_visualization := some needs_viz,
      needs_clarification := some false,
      is_complete := some false }
  else
    { messages := [Msg.ai ("[SQL Agent]\nPlan: " ++ plan ++ "\n\nSQL:\n```sql\n" ++ sql_query ++ "\n```\n\nData Retrieved: " ++ toString rows.length ++ " rows\n\n" ++ rowsMarkdown (rows.take 15))],
      sql_plan := some (some plan),
      sql_query := some (some sql_query),
      leads_data := some (some (serializeRows rows)),
      needs_visualization := some needs_viz,
      needs_clarification := some false,
      is_complete := some false }

/-- The SQL agent node: plan, screen, generate, validate, execute, with
clarification escalations. The two LLM calls are the plan0 and sqlText0
oracle inputs; the data store is the exec oracle, consulted only after
validation succeeds. -/
def sql_agent_node (plan0 sqlText0 : String) (exec : String → ExecResult) (s : State) : Update :=
  let user_question := sqlWorkingInput s
  let q_lower := low user_question
  let needs_viz := vizKeywordsSql.any (fun w => containsSub w.data q_lower)
  let plan := pyStripStr plan0
  let d1 := detect_invalid_response plan
  if d1.1 then
    if d1.2 = "gaming_confusion" then gamingClarUpdate
    else if d1.2 = "web_search" then webClarUpdate
    else notSqlClarUpdate
  else if (("CANNOT_ANSWER").data).isPrefixOf (up plan) then
    cannotAnswerUpdate plan needs_viz
  else
    let sql_text := pyStripStr sqlText0
    if (detect_invalid_response sql_text).1 then genFailUpdate
    else
      let sql_query := extract_sql sql_text
      let v := validate_sql sql_query
      if !v.1 then validationFailUpdate plan sql_query v.2 needs_viz
      else
        match exec sql_query with
        | ExecResult.error e => execErrorUpdate plan sql_query e needs_viz
        | ExecResult.ok rows => successUpdate plan sql_query rows needs_viz

/-- The keywords of the supervisor that mark an underlying-data request. -/
def sqlKeywords : List String :=
  ["top", "show", "list", "find", "get", "count", "how many", "customer"]

/-- The keywords of the supervisor that mark a visualization request. -/
def vizKeywordsSup : List String :=
  ["chart", "pie", "bar", "graph", "plot", "distribution", "breakdown",
   "visualiz", "demographic", "characteristic", "analysis", "insight"]

/-- The keywords of the supervisor that mark a strategy request. -/
def strategyKeywords : List String :=
  ["strategy", "recommend", "approach", "how to", "marketing plan", "re-engage"]

/-- The routing core of the supervisor, as a function of exactly what the
source reads: the first human message, the step counter, the completed
list, and the truthiness of leads_data (product_info is read by the
source but never used). Every branch returns current_step + 1. -/
def supervisorCore (user_request : String) (current_step : Nat)
    (completed_agents : List String) (leads_truthy : Bool) : Update :=
  let request_lower := low user_request
  let needs_sql := sqlKeywords.any (fun kw => containsSub kw.data request_lower)
  let needs_viz := vizKeywordsSup.any (fun kw => containsSub kw.data request_lower)
  let needs_email := containsSub (("email").data) request_lower
  let needs_product := containsSub (("learning labs").data) request_lower
  let needs_strategy := strategyKeywords.any (fun kw => containsSub kw.data request_lower)
  if needs_sql && !(completed_agents.contains ("SQL_AGENT")) then
    { next_agent := some (some ("SQL_AGENT")),
      current_step := some (current_step + 1),
      completed_agents := some (completed_agents ++ [("SQL_AGENT")]),
      needs_visualization := some needs_viz,
      messages := [] }
  else if needs_viz && !(completed_agents.contains ("DATAVIZ_AGENT"))
      && (leads_truthy || !needs_sql) then
    { next_agent := some (some ("DATAVIZ_AGENT")),
      current_step := some (current_step + 1),
      completed_agents := some (completed_agents ++ [("DATAVIZ_AGENT")]),
      messages := [] }
  else if needs_product && needs_email && !(completed_agents.contains ("PRODUCT_EXPERT")) then
    { next_agent := some (some ("PRODUCT_EXPERT")),
      current_step := some (current_step + 1),
      completed_agents := some (completed_agents ++ [("PRODUCT_EXPERT")]),
      messages := [] }
  else if needs_email && !(completed_agents.contains ("EMAIL_WRITER")) then
    { next_agent := some (some ("EMAIL_WRITER")),
      current_step := some (current_step + 1),
      completed_agents := some (completed_agents ++ [("EMAIL_WRITER")]),
      messages := [] }
  else if needs_strategy && !(completed_agents.contains ("SEGMENTATION_AGENT")) then
    { next_agent := some (some ("SEGMENTATION_AGENT")),
      current_step := some (current_step + 1),
      completed_agents := some (completed_agents ++ [("SEGMENTATION_AGENT")]),
      messages := [] }
  else if needs_product && !needs_email && !(completed_agents.contains ("PRODUCT_EXPERT")) then
    { next_agent := some (some ("PRODUCT_EXPERT")),
      current_step := some (current_step + 1),
      completed_agents := some (completed_agents ++ [("PRODUCT_EXPERT")]),
      messages := [] }
  else if !(completed_agents.contains ("SQL_AGENT")) then
    { next_agent := some (some ("SQL_AGENT")),
      current_step := some (current_step + 1),
      completed_agents := some (completed_agents ++ [("SQL_AGENT")]),
      needs_visualization := some needs_viz,
      messages := [] }
  else
    { next_agent := some (some ("COMPLETE")),
      current_step := some (current_step + 1),
      is_complete := some true,
      messages := [] }

/-- The supervisor node reads the state and delegates to the core. -/
def supervisor_node (s : State) : Update :=
  supervisorCore (firstHuman s.messages) s.current_step s.completed_agents
    (pyTruthy s.leads_data)

/-- The dataviz node. Every source branch past the no-data guard returns
exactly a message and is_complete true; the message body (JSON parse of
leads_data, chart-column priority, frequency counts, floating-point
summary statistics, LLM insights and the chart sentinel) is display text
produced at the pandas and LLM boundaries, abstracted as vizText. -/
def dataviz_agent_node (vizText : String) (s : State) : Update :=
  if !pyTruthy s.leads_data then
    { messages := [Msg.ai ("[Data Viz Agent]\nNo data available. Please query data first.")],
      is_complete := some true }
  else
    { messages := [Msg.ai ("[Data Viz Agent]\n" ++ vizText)],
      is_complete := some true }

/-- The segmentation analyst node: a templated LLM call whose text is the
analysis oracle; it writes only messages and segment_analysis. -/
def segmentation_agent_node (analysis : String) (_s : State) : Update :=
  { messages := [Msg.ai ("[Segmentation Analyst]\n" ++ analysis)],
    segment_analysis := some (some analysis) }

/-- The fixed catalog description of Learning Labs Pro (hard-coded). -/
def productDescription : String :=
  "Learning Labs Pro is our flagship professional development platform \ndesigned for ambitious professionals looking to advance their careers.\n\nKey Features:\n- 500+ hands-on labs and projects across tech, business, and leadership\n- AI-powered portfolio builder that showcases your skills to employers\n- Personalized learning paths based on your career goals\n- Industry-recognized certifications included\n- 1-on-1 mentorship sessions with industry experts\n- Job placement assistance and interview preparation\n\nCareer Advancement Benefits:\n- Build a professional portfolio demonstrating real-world skills\n- Earn certifications valued by Fortune 500 companies\n- Get discovered by recruiters through our talent marketplace\n- Average 40% salary increase reported by completers\n\nPricing:\n- Monthly: 149 USD/month\n- Annual: 999 USD/year (save 44%)\n- Enterprise: Custom pricing for teams\n\nSuccess Stories:\n- 87% of users report career advancement within 6 months\n- 92% satisfaction rate from 50,000+ professionals\n- Featured in Forbes as Best Career Development Platform 2024\n\nIdeal For:\n- Working professionals seeking promotion or career change\n- Recent graduates building their portfolios\n- Teams looking to upskill employees\n- Anyone wanting practical, hands-on learning"

/-- The product info string the product expert writes into the state. -/
def product_str : String :=
  "\nProduct: Learning Labs Pro\nTagline: Accelerate Your Career with Hands-On Learning\n\n" ++
    productDescription ++ "\n"

/-- The product expert node: writes messages and the fixed product info. -/
def product_expert_node (responseText : String) (_s : State) : Update :=
  { messages := [Msg.ai ("[Product Expert]\n" ++ responseText)],
    product_info := some (some product_str) }

/-- The email writer node: writes messages, the draft, and completion. -/
def email_writer_node (emailContent : String) (_s : State) : Update :=
  { messages := [Msg.ai ("[Email Writer]\n" ++ emailContent)],
    email_draft := some (some emailContent),
    is_complete := some true }

/-- Conditional routing out of the supervisor: the step ceiling forces the
terminal target, then the routing table maps next_agent, defaulting to
the terminal target. -/
def routingLookup (n : String) : String :=
  if n = "SQL_AGENT" then "sql_agent"
  else if n = "DATAVIZ_AGENT" then "dataviz_agent"
  else if n = "SEGMENTATION_AGENT" then "segmentation_agent"
  else if n = "PRODUCT_EXPERT" then "product_expert"
  else if n = "EMAIL_WRITER" then "email_writer"
  else if n = "COMPLETE" then "__end__"
  else "__end__"

/-- Routing from the supervisor (route_from_supervisor in teams.py). -/
def route_from_supervisor (s : State) : String :=
  if 8 < s.current_step then "__end__"
  else
    match s.next_agent with
    | some n => routingLookup n
    | none => "__end__"

/-- Routing after the SQL agent (route_after_sql in teams.py): back to
the supervisor on completion or missing data, to dataviz when a
visualization is wanted and not yet produced, else to the supervisor. -/
def route_after_sql (s : State) : String :=
  if s.is_complete || !pyTruthy s.leads_data then "supervisor"
  else if s.needs_visualization && !(s.completed_agents.contains ("DATAVIZ_AGENT")) then
    "dataviz_agent"
  else "supervisor"

/-- The fresh initial state built by run_team_query for every invocation:
the message log holds only the current user message, all artifacts are
cleared, and only the clarification answer is carried in. -/
def run_team_query_init (user_message : String) (user_clarification : Option String) : State where
  messages := [Msg.human user_message]
  next_agent := none
  leads_data := none
  product_info := none
  segment_analysis := none
  email_draft := none
  sql_plan := none
  sql_query := none
  sql_validation_error := none
  needs_visualization := false
  needs_clarification := false
  clarification_question := none
  clarification_options := none
  user_clarification := user_clarification
  is_complete := false
  current_step := 0
  completed_agents := []

/-- The graph nodes. -/
inductive Node where
  | supervisor
  | sql
  | dataviz
  | seg
  | prod
  | email
  | done
deriving DecidableEq, Repr

/-- Interpretation of a routing target string as a graph node. -/
def nodeOfTarget (t : String) : Node :=
  if t = "supervisor" then Node.supervisor
  else if t = "sql_agent" then Node.sql
  else if t = "dataviz_agent" then Node.dataviz
  else if t = "segmentation_agent" then Node.seg
  else if t = "product_expert" then Node.prod
  else if t = "email_writer" then Node.email
  else Node.done

/-- A workflow configuration: the node about to run and the state. -/
structure Config where
  node : Node
  state : State
deriving DecidableEq, Repr

/-- The oracle inputs of one step: the LLM responses and the data store. -/
structure Oracle where
  plan : String
  sqlText : String
  exec : String → ExecResult
  vizText : String
  segText : String
  prodText : String
  emailText : String

/-- One step of the compiled graph: run the current node, merge its
update, then follow the conditional edge (supervisor and SQL agent) or
the fixed edge (dataviz, segmentation and product expert return to the
supervisor; the email writer is terminal). -/
def stepFn (o : Oracle) (c : Config) : Config :=
  match c.node with
  | Node.supervisor =>
    let s2 := applyUpdate c.state (supervisor_node c.state)
    ⟨nodeOfTarget (route_from_supervisor s2), s2⟩
  | Node.sql =>
    let s2 := applyUpdate c.state (sql_agent_node o.plan o.sqlText o.exec c.state)
    ⟨nodeOfTarget (route_after_sql s2), s2⟩
  | Node.dataviz => ⟨Node.supervisor, applyUpdate c.state (dataviz_agent_node o.vizText c.state)⟩
  | Node.seg => ⟨Node.supervisor, applyUpdate c.state (segmentation_agent_node o.segText c.state)⟩
  | Node.prod => ⟨Node.supervisor, applyUpdate c.state (product_expert_node o.prodText c.state)⟩
  | Node.email => ⟨Node.done, applyUpdate c.state (email_writer_node o.emailText c.state)⟩
  | Node.done => c

/-- A run of the workflow from one configuration to another, recording
the nodes executed along the way; each step may use fresh oracles. -/
inductive Run : Config → List Node → Config → Prop
  | done (c : Config) : Run c [] c
  | step (o : Oracle) (c : Config) {ns : List Node} {c2 : Config}
      (hne : c.node ≠ Node.done) (h : Run (stepFn o c) ns c2) : Run c (c.node :: ns) c2

/-- The entry configuration of one invocation: the supervisor is the
entry point and the state is the fresh initial state. -/
def initConfig (msg : String) (clar : Option String) : Config :=
  ⟨Node.supervisor, run_team_query_init msg clar⟩

/-- A configuration reachable in some invocation of the workflow. -/
def Reach (c : Config) : Prop :=
  ∃ msg clar ns, Run (initConfig msg clar) ns c

/-- Oracle producing an off-domain plan: the plan stage reports web
content, so the pipeline escalates before generating any SQL. -/
def escalationOracle : Oracle where
  plan := "according to recent search results, Champions are a team."
  sqlText := "SELECT 1;"
  exec := fun _ => ExecResult.ok []
  vizText := "v"
  segText := "s"
  prodText := "p"
  emailText := "e"

/-- Oracle producing a clean plan, a valid aggregate query, and a
two-row aggregated result at the data store. -/
def successOracle : Oracle where
  plan := "Count leads per segment in leadscored."
  sqlText := "SELECT Segment, COUNT(*) AS count FROM leadscored GROUP BY Segment;"
  exec := fun _ =>
    ExecResult.ok [[("Segment", JVal.s ("Champions")), ("count", JVal.n 5)],
                   [("Segment", JVal.s ("At Risk")), ("count", JVal.n 3)]]
  vizText := "chart body"
  segText := "s"
  prodText := "p"
  emailText := "e"

/-- Oracle producing a clean plan and a valid query whose execution
returns zero rows. -/
def emptyResultOracle : Oracle where
  plan := "List leads from leadscored in the Champions segment."
  sqlText := "SELECT customer_id FROM leadscored WHERE Converted = 2;"
  exec := fun _ => ExecResult.ok []
  vizText := "v"
  segText := "s"
  prodText := "p"
  emailText := "e"

theorem containsSub_iff {p l : List Char} : containsSub p l = true ↔ p <:+: l := by
  induction l with
  | nil => simp [containsSub, List.isEmpty_iff, List.infix_nil]
  | cons c rest ih =>
    simp [containsSub, Bool.or_eq_true, ih, List.infix_cons_iff]

theorem length_dropWhile_le (q : α → Bool) (l : List α) :
    (l.dropWhile q).length ≤ l.length :=
  (List.dropWhile_suffix q).sublist.length_le

theorem infix_dropWhile_of_fixed {p l : List Char} (h : p <:+: l)
    (hp : p.dropWhile pyWs = p) : p <:+: l.dropWhile pyWs := by
  induction l with
  | nil => simpa using h
  | cons c rest ih =>
    by_cases hc : pyWs c
    · rw [List.dropWhile_cons_of_pos hc]
      rcases List.infix_cons_iff.1 h with hpre | hinf
      · cases p with
        | nil => exact List.nil_infix
        | cons a p2 =>
          obtain ⟨t, ht⟩ := hpre
          have ha : a = c := by
            have := congrArg (fun l => l.head?) ht
            simpa using this
          subst ha
          rw [List.dropWhile_cons_of_pos hc] at hp
          have hle := length_dropWhile_le pyWs p2
          have := congrArg List.length hp
          simp at this
          omega
      · exact ih hinf
    · rwa [List.dropWhile_cons_of_neg hc]

theorem infix_pyStrip {p l : List Char} (h : p <:+: l)
    (h1 : p.dropWhile pyWs = p) (h2 : p.reverse.dropWhile pyWs = p.reverse) :
    p <:+: pyStrip l := by
  have hfront : p <:+: l.dropWhile pyWs := infix_dropWhile_of_fixed h h1
  have hrev : p.reverse <:+: (l.dropWhile pyWs).reverse :=
    List.reverse_infix.2 hfront
  have hback : p.reverse <:+: ((l.dropWhile pyWs).reverse).dropWhile pyWs :=
    infix_dropWhile_of_fixed hrev h2
  have := List.reverse_infix.2 hback
  simpa [pyStrip] using this

theorem firstHuman_append {l : List Msg} (extra : List Msg)
    (h : ∃ m, Msg.human m ∈ l) : firstHuman (l ++ extra) = firstHuman l := by
  induction l with
  | nil => obtain ⟨m, hm⟩ := h; simp at hm
  | cons x rest ih =>
    cases x with
    | human c => simp [firstHuman]
    | ai c =>
      obtain ⟨m, hm⟩ := h
      simp at hm
      simp [firstHuman]
      exact ih ⟨m, hm⟩
    | sysm c =>
      obtain ⟨m, hm⟩ := h
      simp at hm
      simp [firstHuman]
      exact ih ⟨m, hm⟩

theorem supervisor_step_plus_one (s : State) :
    (supervisor_node s).current_step = some (s.current_step + 1) := by
  simp only [supervisor_node, supervisorCore]
  split_ifs <;> rfl

theorem supervisor_leads_unset (s : State) :
    (supervisor_node s).leads_data = none := by
  simp only [supervisor_node, supervisorCore]
  split_ifs <;> rfl

theorem supervisor_clarification_unset (s : State) :
    (supervisor_node s).needs_clarification = none := by
  simp only [supervisor_node, supervisorCore]
  split_ifs <;> rfl

/-- Every supervisor decision either completes the turn (leaving the
completed list untouched) or dispatches one responder that is not yet in
the completed list and appends exactly it. -/
theorem supervisor_dispatch_shape (s : State) :
    ((supervisor_node s).completed_agents = none ∧
      (supervisor_node s).next_agent = some (some ("COMPLETE")) ∧
      (supervisor_node s).is_complete = some true) ∨
    (∃ a, (supervisor_node s).next_agent = some (some a) ∧
      (supervisor_node s).completed_agents = some (s.completed_agents ++ [a]) ∧
      s.completed_agents.contains a = false ∧
      (supervisor_node s).is_complete = none) := by
  simp only [supervisor_node, supervisorCore]
  split_ifs with h1 h2 h3 h4 h5 h6 h7
  · exact Or.inr ⟨"SQL_AGENT", rfl, rfl,
      by simp only [Bool.and_eq_true, Bool.not_eq_true'] at h1; exact h1.2, rfl⟩
  · exact Or.inr ⟨"DATAVIZ_AGENT", rfl, rfl,
      by simp only [Bool.and_eq_true, Bool.not_eq_true'] at h2; exact h2.1.2, rfl⟩
  · exact Or.inr ⟨"PRODUCT_EXPERT", rfl, rfl,
      by simp only [Bool.and_eq_true, Bool.not_eq_true'] at h3; exact h3.2, rfl⟩
  · exact Or.inr ⟨"EMAIL_WRITER", rfl, rfl,
      by simp only [Bool.and_eq_true, Bool.not_eq_true'] at h4; exact h4.2, rfl⟩
  · exact Or.inr ⟨"SEGMENTATION_AGENT", rfl, rfl,
      by simp only [Bool.and_eq_true, Bool.not_eq_true'] at h5; exact h5.2, rfl⟩
  · exact Or.inr ⟨"PRODUCT_EXPERT", rfl, rfl,
      by simp only [Bool.and_eq_true, Bool.not_eq_true'] at h6; exact h6.2, rfl⟩
  · exact Or.inr ⟨"SQL_AGENT", rfl, rfl,
      by simp only [Bool.not_eq_true'] at h7; exact h7, rfl⟩
  · exact Or.inl ⟨rfl, rfl, rfl⟩

/-- The SQL agent node returns one of eight update shapes: the three
plan-screening clarifications, the generation-screening clarification,
the cannot-answer terminal, the validation rejection, the execution
error, or the post-execution result. -/
theorem sql_node_shape (plan0 sqlText0 : String) (exec : String → ExecResult) (s : State) :
    sql_agent_node plan0 sqlText0 exec s = gamingClarUpdate ∨
    sql_agent_node plan0 sqlText0 exec s = webClarUpdate ∨
    sql_agent_node plan0 sqlText0 exec s = notSqlClarUpdate ∨
    sql_agent_node plan0 sqlText0 exec s = genFailUpdate ∨
    (∃ plan nv, sql_agent_node plan0 sqlText0 exec s = cannotAnswerUpdate plan nv) ∨
    (∃ plan q err nv, sql_agent_node plan0 sqlText0 exec s = validationFailUpdate plan q err nv) ∨
    (∃ plan q msg nv, sql_agent_node plan0 sqlText0 exec s = execErrorUpdate plan q msg nv) ∨
    (∃ plan q rows nv, sql_agent_node plan0 sqlText0 exec s = successUpdate plan q rows nv) := by
  simp only [sql_agent_node]
  split_ifs
  · exact Or.inl rfl
  · exact Or.inr (Or.inl rfl)
  · exact Or.inr (Or.inr (Or.inl rfl))
  · exact Or.inr (Or.inr (Or.inr (Or.inr (Or.inl ⟨_, _, rfl⟩))))
  · exact Or.inr (Or.inr (Or.inr (Or.inl rfl)))
  · exact Or.inr (Or.inr (Or.inr (Or.inr (Or.inr (Or.inl ⟨_, _, _, _, rfl⟩)))))
  · split
    · exact Or.inr (Or.inr (Or.inr (Or.inr (Or.inr (Or.inr (Or.inl ⟨_, _, _, _, rfl⟩))))))
    · exact Or.inr (Or.inr (Or.inr (Or.inr (Or.inr (Or.inr (Or.inr ⟨_, _, _, _, rfl⟩))))))

theorem sql_update_completed_unset (p q : String) (e : String → ExecResult) (s : State) :
    (sql_agent_node p q e s).completed_agents = none := by
  rcases sql_node_shape p q e s with h|h|h|h|⟨a,b,h⟩|⟨a,b,c,d,h⟩|⟨a,b,c,d,h⟩|⟨a,b,c,d,h⟩ <;>
    rw [h] <;>
    first
      | rfl
      | (simp only [successUpdate]; split_ifs <;> rfl)

theorem sql_flags_exclusive (p q : String) (e : String → ExecResult) (s : State)
    (h : (sql_agent_node p q e s).needs_clarification = some true) :
    (sql_agent_node p q e s).is_complete = some false := by
  rcases sql_node_shape p q e s with hs|hs|hs|hs|⟨a,b,hs⟩|⟨a,b,c,d,hs⟩|⟨a,b,c,d,hs⟩|⟨a,b,c,d,hs⟩ <;>
    rw [hs] <;> rw [hs] at h <;>
    first
      | rfl
      | (exfalso; simp [cannotAnswerUpdate] at h)
      | (simp only [successUpdate] at h ⊢; split_ifs at h ⊢ <;> simp_all)

theorem sql_leads_shape (p q : String) (e : String → ExecResult) (s : State) :
    (sql_agent_node p q e s).leads_data = none ∨
    (sql_agent_node p q e s).leads_data = some none ∨
    ∃ rows : List Row,
      (sql_agent_node p q e s).leads_data = some (some (serializeRows rows)) := by
  rcases sql_node_shape p q e s with h|h|h|h|⟨a,b,h⟩|⟨a,b,c,d,h⟩|⟨a,b,c,d,h⟩|⟨a,b,c,d,h⟩ <;> rw [h]
  · exact Or.inl rfl
  · exact Or.inl rfl
  · exact Or.inl rfl
  · exact Or.inl rfl
  · exact Or.inr (Or.inl rfl)
  · exact Or.inr (Or.inl rfl)
  · exact Or.inr (Or.inl rfl)
  · simp only [successUpdate]
    split_ifs
    · exact Or.inr (Or.inl rfl)
    · exact Or.inr (Or.inr ⟨c, rfl⟩)

theorem dataviz_fields (t : String) (s : State) :
    (dataviz_agent_node t s).leads_data = none ∧
    (dataviz_agent_node t s).completed_agents = none ∧
    (dataviz_agent_node t s).needs_clarification = none ∧
    (dataviz_agent_node t s).is_complete = some true := by
  simp only [dataviz_agent_node]
  split_ifs <;> exact ⟨rfl, rfl, rfl, rfl⟩

theorem serializeRows_ne_empty (rows : List Row) : serializeRows rows ≠ "" := by
  intro h
  have := congrArg String.data h
  simp [serializeRows] at this

theorem not_mem_of_contains_false {l : List String} {a : String}
    (h : l.contains a = false) : a ∉ l := by
  simp at h
  exact h

theorem route_after_sql_cases (s : State) :
    route_after_sql s = "supervisor" ∨ route_after_sql s = "dataviz_agent" := by
  simp only [route_after_sql]
  split_ifs <;> simp

theorem routingLookup_eq_sql {n : String} (h : routingLookup n = "sql_agent") :
    n = "SQL_AGENT" := by
  by_contra hne
  simp only [routingLookup] at h
  split_ifs at h <;> simp_all

theorem nodeOfTarget_eq_sql {t : String} (h : nodeOfTarget t = Node.sql) :
    t = "sql_agent" := by
  by_contra hne
  simp only [nodeOfTarget] at h
  split_ifs at h <;> simp_all

theorem mem_completed_mono (o : Oracle) (c : Config) (a : String)
    (h : a ∈ c.state.completed_agents) : a ∈ (stepFn o c).state.completed_agents := by
  obtain ⟨n, s⟩ := c
  cases n
  · dsimp only [stepFn]
    simp only [applyUpdate]
    rcases supervisor_dispatch_shape s with ⟨h1, _, _⟩ | ⟨x, _, h2, _, _⟩
    · rw [h1]; exact h
    · rw [h2]; exact List.mem_append_left _ h
  · dsimp only [stepFn]
    simp only [applyUpdate]
    rw [sql_update_completed_unset]
    exact h
  · dsimp only [stepFn]
    simp only [applyUpdate]
    rw [(dataviz_fields o.vizText s).2.1]
    exact h
  · exact h
  · exact h
  · exact h
  · exact h

theorem stepFn_node_sql (o : Oracle) (c : Config) (h : (stepFn o c).node = Node.sql) :
    c.node = Node.supervisor ∧
    c.state.completed_agents.contains ("SQL_AGENT") = false ∧
    "SQL_AGENT" ∈ (stepFn o c).state.completed_agents := by
  obtain ⟨n, s⟩ := c
  cases n
  case supervisor =>
    dsimp only [stepFn] at h ⊢
    rcases supervisor_dispatch_shape s with ⟨h1, h2, h3⟩ | ⟨x, hnext, hcomp, hcontains, _⟩
    · exfalso
      have hna : (applyUpdate s (supervisor_node s)).next_agent = some ("COMPLETE") := by
        simp [applyUpdate, h2]
      have ht := nodeOfTarget_eq_sql h
      simp only [route_from_supervisor, hna] at ht
      split_ifs at ht <;> simp_all [routingLookup]
    · have hna : (applyUpdate s (supervisor_node s)).next_agent = some x := by
        simp [applyUpdate, hnext]
      have ht := nodeOfTarget_eq_sql h
      simp only [route_from_supervisor, hna] at ht
      split_ifs at ht
      · exact absurd ht (by decide)
      · have hx := routingLookup_eq_sql ht
        subst hx
        refine ⟨rfl, hcontains, ?_⟩
        simp [applyUpdate, hcomp]
  case sql =>
    exfalso
    dsimp only [stepFn] at h
    rcases route_after_sql_cases (applyUpdate s (sql_agent_node o.plan o.sqlText o.exec s)) with hr | hr <;>
      rw [hr] at h <;> exact absurd h (by decide)
  case dataviz => dsimp only [stepFn] at h; exact absurd h (by decide)
  case seg => dsimp only [stepFn] at h; exact absurd h (by decide)
  case prod => dsimp only [stepFn] at h; exact absurd h (by decide)
  case email => dsimp only [stepFn] at h; exact absurd h (by decide)
  case done => dsimp only [stepFn] at h; exact absurd h (by decide)

theorem stepFn_from_sql_node (o : Oracle) (c : Config) (hc : c.node = Node.sql) :
    (stepFn o c).node ≠ Node.sql := by
  obtain ⟨n, s⟩ := c
  cases hc
  dsimp only [stepFn]
  rcases route_after_sql_cases (applyUpdate s (sql_agent_node o.plan o.sqlText o.exec s)) with hr | hr <;>
    rw [hr] <;> decide

theorem run_preserves {P : Config → Prop}
    (hstep : ∀ o c, P c → P (stepFn o c)) {c : Config} {ns : List Node} {c2 : Config}
    (h : Run c ns c2) (hc : P c) : P c2 := by
  induction h with
  | done c => exact hc
  | step o c hne h ih => exact ih (hstep o c hc)

theorem count_sql_zero_of_mem {c : Config} {ns : List Node} {c2 : Config} (h : Run c ns c2) :
    "SQL_AGENT" ∈ c.state.completed_agents → c.node ≠ Node.sql →
    ns.count Node.sql = 0 := by
  induction h with
  | done c => intro _ _; rfl
  | step o c hne h ih =>
    intro hmem hnode
    have hm2 : "SQL_AGENT" ∈ (stepFn o c).state.completed_agents :=
      mem_completed_mono o c _ hmem
    have hn2 : (stepFn o c).node ≠ Node.sql := by
      intro hq
      obtain ⟨_, hcf, _⟩ := stepFn_node_sql o c hq
      exact not_mem_of_contains_false hcf hmem
    have h0 := ih hm2 hn2
    simp [List.count_cons, h0]
    intro hb
    exact absurd (by simpa using hb) hnode

theorem count_sql_from_sql {c : Config} {ns : List Node} {c2 : Config} (h : Run c ns c2) :
    c.node = Node.sql → "SQL_AGENT" ∈ c.state.completed_agents →
    ns.count Node.sql ≤ 1 := by
  induction h with
  | done c => intro _ _; simp
  | step o c hne h ih =>
    intro hnode hmem
    have hm2 : "SQL_AGENT" ∈ (stepFn o c).state.completed_agents :=
      mem_completed_mono o c _ hmem
    have hn2 : (stepFn o c).node ≠ Node.sql := stepFn_from_sql_node o c hnode
    have h0 := count_sql_zero_of_mem h hm2 hn2
    simp [List.count_cons, h0, hnode]

theorem count_sql_le_one {c : Config} {ns : List Node} {c2 : Config} (h : Run c ns c2) :
    c.node ≠ Node.sql → ns.count Node.sql ≤ 1 := by
  induction h with
  | done c => intro _; simp
  | @step o c ns2 c3 hne h ih =>
    intro hnode
    rw [List.count_cons]
    have hif : (if c.node == Node.sql then 1 else 0) = 0 := by
      simp [hnode]
    rw [hif]
    by_cases hq : (stepFn o c).node = Node.sql
    · obtain ⟨hsup, hcf, hm⟩ := stepFn_node_sql o c hq
      have htail := count_sql_from_sql h hq hm
      omega
    · have htail := ih hq
      omega

theorem completed_nodup_step (o : Oracle) (c : Config)
    (h : c.state.completed_agents.Nodup) :
    (stepFn o c).state.completed_agents.Nodup := by
  obtain ⟨n, s⟩ := c
  cases n
  case supervisor =>
    dsimp only [stepFn]
    simp only [applyUpdate]
    rcases supervisor_dispatch_shape s with ⟨h1, _, _⟩ | ⟨x, _, h2, hcontains, _⟩
    · rw [h1]; exact h
    · rw [h2]
      simp only [Option.getD_some]
      have hx : x ∉ s.completed_agents := not_mem_of_contains_false hcontains
      rw [← List.concat_eq_append]
      exact List.Nodup.concat hx h
  case sql =>
    dsimp only [stepFn]
    simp only [applyUpdate]
    rw [sql_update_completed_unset]
    exact h
  case dataviz =>
    dsimp only [stepFn]
    simp only [applyUpdate]
    rw [(dataviz_fields o.vizText s).2.1]
    exact h
  case seg => exact h
  case prod => exact h
  case email => exact h
  case done => exact h

theorem leads_ok_step (o : Oracle) (c : Config) (h : c.state.leads_data ≠ some "") :
    (stepFn o c).state.leads_data ≠ some "" := by
  obtain ⟨n, s⟩ := c
  cases n
  case supervisor =>
    dsimp only [stepFn]
    simp only [applyUpdate]
    rw [supervisor_leads_unset]
    exact h
  case sql =>
    dsimp only [stepFn]
    simp only [applyUpdate]
    rcases sql_leads_shape o.plan o.sqlText o.exec s with h1 | h1 | ⟨rows, h1⟩ <;> rw [h1]
    · exact h
    · simp
    · simpa using serializeRows_ne_empty rows
  case dataviz =>
    dsimp only [stepFn]
    simp only [applyUpdate]
    rw [(dataviz_fields o.vizText s).1]
    exact h
  case seg => exact h
  case prod => exact h
  case email => exact h
  case done => exact h

theorem pyTruthy_eq_isSome {od : Option String} (h : od ≠ some "") :
    pyTruthy od = od.isSome := by
  cases od with
  | none => rfl
  | some str =>
    obtain ⟨l⟩ := str
    cases l with
    | nil => exact absurd rfl h
    | cons a t => rfl

/-- Claim C1: the Validate stage rejects a query string exactly when it
contains a WITH clause combined with AS, more than one SELECT keyword,
any JOIN keyword, or no reference to the table leadscored; every
rejection carries the specific violated rule; the four cited example
queries are rejected or accepted accordingly; and whenever the generated
query fails validation the node output is independent of the execution
oracle and equals the validation clarification, carrying the violated
rule in sql_validation_error with needs_clarification set and leads_data
cleared - nothing is executed. -/
theorem claim1_validate_rejects_iff :
    (∀ sql : String,
      (validate_sql sql).1 = false ↔
        ((containsSub (("WITH ").data) (up sql) = true ∧
            containsSub ((" AS ").data) (up sql) = true) ∨
          1 < countSub (("SELECT").data) (up sql) ∨
          containsSub (("JOIN").data) (up sql) = true ∨
          containsSub (("leadscored").data) (low sql) = false)) ∧
    (∀ sql : String, (validate_sql sql).1 = false → (validate_sql sql).2 ≠ "") ∧
    (validate_sql ("WITH x AS (...) SELECT ...")).1 = false ∧
    (validate_sql ("SELECT * FROM a WHERE id IN (SELECT id FROM a)")).1 = false ∧
    (validate_sql ("SELECT * FROM leadscored JOIN other ON ...")).1 = false ∧
    (validate_sql ("SELECT Segment, COUNT(*) FROM leadscored GROUP BY Segment ORDER BY COUNT(*) DESC")).1 = true ∧
    (∀ (plan0 sqlText0 : String) (exec1 exec2 : String → ExecResult) (s : State),
      (validate_sql (extract_sql (pyStripStr sqlText0))).1 = false →
      sql_agent_node plan0 sqlText0 exec1 s = sql_agent_node plan0 sqlText0 exec2 s) ∧
    (∀ (plan0 sqlText0 : String) (exec : String → ExecResult) (s : State),
      (detect_invalid_response (pyStripStr plan0)).1 = false →
      (("CANNOT_ANSWER").data).isPrefixOf (up (pyStripStr plan0)) = false →
      (detect_invalid_response (pyStripStr sqlText0)).1 = false →
      (validate_sql (extract_sql (pyStripStr sqlText0))).1 = false →
      sql_agent_node plan0 sqlText0 exec s =
        validationFailUpdate (pyStripStr plan0) (extract_sql (pyStripStr sqlText0))
          (validate_sql (extract_sql (pyStripStr sqlText0))).2
          (vizKeywordsSql.any fun w => containsSub w.data (low (sqlWorkingInput s))) ∧
      (sql_agent_node plan0 sqlText0 exec s).needs_clarification = some true ∧
      (sql_agent_node plan0 sqlText0 exec s).sql_validation_error =
        some (some (validate_sql (extract_sql (pyStripStr sqlText0))).2) ∧
      (sql_agent_node plan0 sqlText0 exec s).leads_data = some none) := by
  refine ⟨?_, ?_, by decide, by decide, by decide, by decide, ?_, ?_⟩
  · intro sql
    simp only [validate_sql]
    split_ifs with h1 h2 h3 h4 <;>
      simp_all [Bool.and_eq_true, Bool.not_eq_true'] <;> tauto
  · intro sql h
    simp only [validate_sql] at h ⊢
    split_ifs at h ⊢ <;> simp_all
  · intro plan0 sqlText0 exec1 exec2 s hv
    simp only [sql_agent_node]
    split_ifs <;> simp_all
  · intro plan0 sqlText0 exec s h1 h2 h3 h4
    have heq : sql_agent_node plan0 sqlText0 exec s =
        validationFailUpdate (pyStripStr plan0) (extract_sql (pyStripStr sqlText0))
          (validate_sql (extract_sql (pyStripStr sqlText0))).2
          (vizKeywordsSql.any fun w => containsSub w.data (low (sqlWorkingInput s))) := by
      simp only [sql_agent_node]
      simp [h1, h2, h3, h4]
    exact ⟨heq, by rw [heq]; rfl, by rw [heq]; rfl, by rw [heq]; rfl⟩

/-- Claim C1 witness: at a concrete plan, generated query, execution
oracle and state, the generated query fails validation and the node
reports the clarification with needs_clarification set. -/
theorem claim1_witness :
    (sql_agent_node ("Count rows in leadscored.") ("SELECT a FROM other JOIN b;")
      (fun _ => ExecResult.ok []) (run_team_query_init ("show customers") none)).needs_clarification =
      some true :=
  (claim1_validate_rejects_iff.2.2.2.2.2.2.2 ("Count rows in leadscored.")
    ("SELECT a FROM other JOIN b;") (fun _ => ExecResult.ok [])
    (run_team_query_init ("show customers") none)
    (by decide) (by decide) (by decide) (by decide)).2.1

/-- Claim C2: every supervisor decision returns current_step + 1, and for
every state whose step counter exceeds 8 the routing function returns
the terminal target, which the graph maps to the end node - no responder
is dispatched, regardless of the completed list. -/
theorem claim2_step_guard :
    (∀ s : State, (supervisor_node s).current_step = some (s.current_step + 1)) ∧
    (∀ s : State, 8 < s.current_step →
      route_from_supervisor s = "__end__" ∧
      nodeOfTarget (route_from_supervisor s) = Node.done) := by
  refine ⟨supervisor_step_plus_one, fun s h => ?_⟩
  have hr : route_from_supervisor s = "__end__" := by
    simp [route_from_supervisor, h]
  exact ⟨hr, by rw [hr]; decide⟩

/-- Claim C2 witness: at a concrete state with step counter 9 the routing
function returns the terminal target. -/
theorem claim2_witness :
    route_from_supervisor { run_team_query_init ("show customers") none with current_step := 9 } = "__end__" ∧
    nodeOfTarget (route_from_supervisor { run_team_query_init ("show customers") none with current_step := 9 }) = Node.done :=
  claim2_step_guard.2 { run_team_query_init ("show customers") none with current_step := 9 } (by decide)

/-- Claim C3: any plan text containing the phrase according to recent
search results is classified as a web_search failure, and the node
returns the fixed pending web-search clarification, with
needs_clarification true, a non-empty option list, is_complete false,
and no generated query or tabular data - the output is a constant
independent of the generation and execution oracles. -/
theorem claim3_web_search_escalation (plan0 sqlText0 : String)
    (exec : String → ExecResult) (s : State)
    (h : containsSub (("according to recent search results").data) plan0.data = true) :
    detect_invalid_response (pyStripStr plan0) = (true, "web_search") ∧
    sql_agent_node plan0 sqlText0 exec s = webClarUpdate ∧
    webClarUpdate.needs_clarification = some true ∧
    (∃ opts, webClarUpdate.clarification_options = some (some opts) ∧ opts ≠ []) ∧
    webClarUpdate.is_complete = some false ∧
    webClarUpdate.sql_query = none ∧
    webClarUpdate.leads_data = none := by
  have hinf : (("according to recent search results").data : List Char) <:+: plan0.data :=
    containsSub_iff.1 h
  have hstr : (("according to recent search results").data : List Char) <:+: pyStrip plan0.data :=
    infix_pyStrip hinf (by decide) (by decide)
  have hmap := List.IsInfix.map Char.toLower hstr
  have hself : (("according to recent search results").data).map Char.toLower =
      ("according to recent search results").data := by decide
  rw [hself] at hmap
  have hsub : (("according to").data : List Char) <:+: ("according to recent search results").data := by
    decide
  have hlow : containsSub (("according to").data) (low (pyStripStr plan0)) = true :=
    containsSub_iff.2 (hsub.trans hmap)
  have hweb : webIndicators.any
      (fun ind => containsSub ind.data (low (pyStripStr plan0))) = true :=
    List.any_eq_true.2 ⟨"according to", by decide, hlow⟩
  have hdet : detect_invalid_response (pyStripStr plan0) = (true, "web_search") := by
    simp [detect_invalid_response, hweb]
  refine ⟨hdet, ?_, rfl, ⟨_, rfl, by decide⟩, rfl, rfl, rfl⟩
  simp [sql_agent_node, hdet]

/-- Claim C3 witness: a concrete web-flavored plan yields the web-search
clarification at a concrete state. -/
theorem claim3_witness :
    sql_agent_node ("according to recent search results, Champions lead.") ("SELECT 1;")
      (fun _ => ExecResult.ok []) (run_team_query_init ("show customers") none) = webClarUpdate :=
  (claim3_web_search_escalation ("according to recent search results, Champions lead.")
    ("SELECT 1;") (fun _ => ExecResult.ok [])
    (run_team_query_init ("show customers") none) (by decide)).2.1

/-- Claim C4 (amended): resuming with a non-empty clarification answer
re-enters stage 1 with working input equal to the concatenation of the
original request and the annotation of the chosen answer - the original
request is not discarded; however the resumed invocation is built on a
fresh state whose message log holds only the original user message: the
interrupted turn log is not carried into the graph state. -/
theorem claim4_resume_concatenation (msg ans : String) (h : ans ≠ "") :
    sqlWorkingInput (run_team_query_init msg (some ans)) =
      msg ++ " (User clarified: " ++ ans ++ ")" ∧
    (run_team_query_init msg (some ans)).messages = [Msg.human msg] := by
  constructor
  · obtain ⟨l⟩ := ans
    cases l with
    | nil => exact absurd rfl h
    | cons a t => rfl
  · rfl

/-- Claim C4 witness: a concrete resumption concatenates the original
request with the chosen option. -/
theorem claim4_witness :
    sqlWorkingInput (run_team_query_init ("show customers") (some ("Show segment distribution"))) =
      "show customers" ++ " (User clarified: " ++ "Show segment distribution" ++ ")" ∧
    (run_team_query_init ("show customers") (some ("Show segment distribution"))).messages =
      [Msg.human ("show customers")] :=
  claim4_resume_concatenation ("show customers") ("Show segment distribution") (by decide)

/-- Claim C4 counterexample: a turn interrupted by a clarification has a
two-entry message log (the request and the clarification question), yet
the invocation that resumes it starts from a log holding only the
original request - the interrupted turn log is not preserved, so the
resumption is a fresh turn apart from the clarification answer. -/
theorem claim4_counterexample :
    (∃ c : Config,
      Run (initConfig ("show customers") none) [Node.supervisor, Node.sql] c ∧
      c.state.needs_clarification = true ∧
      c.state.messages.length = 2) ∧
    (run_team_query_init ("show customers") (some ("Show segment distribution"))).messages =
      [Msg.human ("show customers")] ∧
    (run_team_query_init ("show customers") (some ("Show segment distribution"))).messages.length = 1 := by
  refine ⟨⟨stepFn escalationOracle (stepFn escalationOracle (initConfig ("show customers") none)),
    ?_, by decide, by decide⟩, rfl, rfl⟩
  exact Run.step escalationOracle _ (by decide)
    (Run.step escalationOracle _ (by decide) (Run.done _))

/-- Claim C5 (amended): whenever the pipeline escalates to a
clarification, the same update sets is_complete false, and when the
merged state carries no truthy tabular data the route after the SQL node
returns to the supervisor rather than dispatching the visualization
responder; the supervisor itself, however, is not blocked by an
unanswered clarification (see the counterexample). -/
theorem claim5_escalation_suspends (p q : String) (e : String → ExecResult) (s : State)
    (h : (sql_agent_node p q e s).needs_clarification = some true) :
    (sql_agent_node p q e s).is_complete = some false ∧
    (pyTruthy (applyUpdate s (sql_agent_node p q e s)).leads_data = false →
      route_after_sql (applyUpdate s (sql_agent_node p q e s)) = "supervisor") := by
  have hic := sql_flags_exclusive p q e s h
  refine ⟨hic, fun hld => ?_⟩
  have hic2 : (applyUpdate s (sql_agent_node p q e s)).is_complete = false := by
    simp [applyUpdate, hic]
  simp [route_after_sql, hic2, hld]

/-- Claim C5 witness: a concrete escalation has is_complete false and
routes back to the supervisor. -/
theorem claim5_witness :
    (sql_agent_node ("according to recent search results, x.") ("SELECT 1;")
        (fun _ => ExecResult.ok []) (run_team_query_init ("show customers") none)).is_complete =
      some false ∧
    (pyTruthy (applyUpdate (run_team_query_init ("show customers") none)
        (sql_agent_node ("according to recent search results, x.") ("SELECT 1;")
          (fun _ => ExecResult.ok []) (run_team_query_init ("show customers") none))).leads_data = false →
      route_after_sql (applyUpdate (run_team_query_init ("show customers") none)
        (sql_agent_node ("according to recent search results, x.") ("SELECT 1;")
          (fun _ => ExecResult.ok []) (run_team_query_init ("show customers") none))) = "supervisor") :=
  claim5_escalation_suspends ("according to recent search results, x.") ("SELECT 1;")
    (fun _ => ExecResult.ok []) (run_team_query_init ("show customers") none) (by decide)

/-- Claim C5 counterexample: from a request that fires both the data and
the email intents, the pipeline escalates to a clarification, yet the
workflow reaches a configuration about to execute the email responder
while the clarification is still pending and unanswered - routing does
not stop at an unanswered pending clarification. -/
theorem claim5_counterexample :
    ∃ c : Config,
      Run (initConfig ("show customers and write an email about it") none)
        [Node.supervisor, Node.sql, Node.supervisor] c ∧
      c.state.needs_clarification = true ∧
      c.state.user_clarification = none ∧
      c.node = Node.email := by
  refine ⟨_, Run.step escalationOracle _ (by decide)
    (Run.step escalationOracle _ (by decide)
      (Run.step escalationOracle _ (by decide) (Run.done _))), by decide, by decide, by decide⟩

/-- Claim C6 (amended): no single node update sets needs_clarification
true together with is_complete true - the supervisor, dataviz and email
writer never write needs_clarification, the segmentation and product
nodes write neither flag, and every SQL escalation pairs
needs_clarification true with is_complete false. A reachable steady
state can nevertheless carry both flags true when the supervisor
completes a turn after an unanswered escalation (see counterexample). -/
theorem claim6_update_exclusive :
    (∀ s : State, (supervisor_node s).needs_clarification = none) ∧
    (∀ (p q : String) (e : String → ExecResult) (s : State),
      (sql_agent_node p q e s).needs_clarification = some true →
      (sql_agent_node p q e s).is_complete = some false) ∧
    (∀ (t : String) (s : State), (dataviz_agent_node t s).needs_clarification = none) ∧
    (∀ (t : String) (s : State),
      (segmentation_agent_node t s).needs_clarification = none ∧
      (segmentation_agent_node t s).is_complete = none) ∧
    (∀ (t : String) (s : State),
      (product_expert_node t s).needs_clarification = none ∧
      (product_expert_node t s).is_complete = none) ∧
    (∀ (t : String) (s : State), (email_writer_node t s).needs_clarification = none) :=
  ⟨supervisor_clarification_unset, sql_flags_exclusive,
    fun t s => (dataviz_fields t s).2.2.1,
    fun _ _ => ⟨rfl, rfl⟩, fun _ _ => ⟨rfl, rfl⟩, fun _ _ => rfl⟩

/-- Claim C6 witness: a concrete SQL escalation pairs the clarification
flag with is_complete false. -/
theorem claim6_witness :
    (sql_agent_node ("according to recent search results, y.") ("SELECT 1;")
        (fun _ => ExecResult.ok []) (run_team_query_init ("show customers") none)).is_complete =
      some false :=
  claim6_update_exclusive.2.1 ("according to recent search results, y.") ("SELECT 1;")
    (fun _ => ExecResult.ok []) (run_team_query_init ("show customers") none) (by decide)

/-- Claim C6 counterexample: after an escalation on a data-only request,
the supervisor finds every intent served, marks the turn complete and
terminates - the halted configuration carries needs_clarification true
and is_complete true simultaneously, refuting mutual exclusion at steady
state. -/
theorem claim6_counterexample :
    ∃ c : Config,
      Run (initConfig ("show customers") none)
        [Node.supervisor, Node.sql, Node.supervisor] c ∧
      c.node = Node.done ∧
      c.state.needs_clarification = true ∧
      c.state.is_complete = true := by
  refine ⟨_, Run.step escalationOracle _ (by decide)
    (Run.step escalationOracle _ (by decide)
      (Run.step escalationOracle _ (by decide) (Run.done _))), by decide, by decide, by decide⟩

/-- Claim C7 (amended): within one invocation the completed list never
holds a duplicate identifier, and the supervisor only dispatches a
responder that is absent from the completed list, recording exactly it;
the Analytics (dataviz) node, however, can execute twice in a turn,
because the direct route taken after the SQL node does not record it in
the completed list (see counterexample). -/
theorem claim7_no_duplicate_dispatch :
    (∀ (msg : String) (clar : Option String) (ns : List Node) (c : Config),
      Run (initConfig msg clar) ns c → c.state.completed_agents.Nodup) ∧
    (∀ (s : State) (a : String),
      (supervisor_node s).next_agent = some (some a) → a ≠ "COMPLETE" →
      s.completed_agents.contains a = false ∧
      (supervisor_node s).completed_agents = some (s.completed_agents ++ [a])) := by
  constructor
  · intro msg clar ns c h
    exact run_preserves (fun o c hc => completed_nodup_step o c hc) h (by simp [initConfig, run_team_query_init])
  · intro s a hna hne
    rcases supervisor_dispatch_shape s with ⟨h1, h2, h3⟩ | ⟨x, hnext, hcomp, hcontains, _⟩
    · exfalso
      have := h2.symm.trans hna
      simp at this
      exact hne this.symm
    · have hax : x = a := by
        have := hnext.symm.trans hna
        simpa using this
      subst hax
      exact ⟨hcontains, hcomp⟩

/-- Claim C7 witness: a concrete two-step run keeps the completed list
duplicate-free. -/
theorem claim7_witness :
    (stepFn escalationOracle (stepFn escalationOracle
      (initConfig ("show customers") none))).state.completed_agents.Nodup :=
  claim7_no_duplicate_dispatch.1 ("show customers") none [Node.supervisor, Node.sql] _
    (Run.step escalationOracle _ (by decide)
      (Run.step escalationOracle _ (by decide) (Run.done _)))

/-- Claim C7 counterexample: on a request firing both the data and the
visualization intents, the dataviz node executes twice in one turn - once
dispatched by the direct route after the SQL node (which records nothing
in the completed list) and once by the supervisor - refuting that no
responder node executes more than once. -/
theorem claim7_counterexample :
    (∃ c : Config,
      Run (initConfig ("show segment distribution chart") none)
        [Node.supervisor, Node.sql, Node.dataviz, Node.supervisor, Node.dataviz, Node.supervisor] c ∧
      c.node = Node.done) ∧
    ([Node.supervisor, Node.sql, Node.dataviz, Node.supervisor, Node.dataviz,
      Node.supervisor].count Node.dataviz = 2) := by
  refine ⟨⟨_, Run.step successOracle _ (by decide)
    (Run.step successOracle _ (by decide)
      (Run.step successOracle _ (by decide)
        (Run.step successOracle _ (by decide)
          (Run.step successOracle _ (by decide)
            (Run.step successOracle _ (by decide) (Run.done _)))))), by decide⟩, by decide⟩

/-- Claim C8: the supervisor and every responder other than the SQL node
return update dicts without the leads_data key, leaving tabular data
unchanged - only the SQL node writes it - and in any run of one
invocation the SQL node executes at most once, so leads_data is written
at most once per turn. -/
theorem claim8_leads_frame :
    (∀ s : State, (supervisor_node s).leads_data = none) ∧
    (∀ (t : String) (s : State), (dataviz_agent_node t s).leads_data = none) ∧
    (∀ (t : String) (s : State), (segmentation_agent_node t s).leads_data = none) ∧
    (∀ (t : String) (s : State), (product_expert_node t s).leads_data = none) ∧
    (∀ (t : String) (s : State), (email_writer_node t s).leads_data = none) ∧
    (∀ (msg : String) (clar : Option String) (ns : List Node) (c : Config),
      Run (initConfig msg clar) ns c → ns.count Node.sql ≤ 1) := by
  refine ⟨supervisor_leads_unset, fun t s => (dataviz_fields t s).1,
    fun _ _ => rfl, fun _ _ => rfl, fun _ _ => rfl, ?_⟩
  intro msg clar ns c h
  exact count_sql_le_one h (fun hx => Node.noConfusion hx)

/-- Claim C8 witness: a concrete run dispatching the SQL node once has
SQL count one, within the bound. -/
theorem claim8_witness :
    ([Node.supervisor, Node.sql] : List Node).count Node.sql ≤ 1 :=
  claim8_leads_frame.2.2.2.2.2 ("show customers") none [Node.supervisor, Node.sql] _
    (Run.step escalationOracle _ (by decide)
      (Run.step escalationOracle _ (by decide) (Run.done _)))

/-- Claim C9: on reachable states the supervisor routing decision is a
function only of the first human message, the completed list, the step
counter, and the presence of tabular data (reachable states never hold
an empty-string leads_data, so presence and truthiness coincide); user
messages appended after an existing human message never change the
decision. -/
theorem claim9_routing_determinism :
    (∀ c1 c2 : Config, Reach c1 → Reach c2 →
      firstHuman c1.state.messages = firstHuman c2.state.messages →
      c1.state.completed_agents = c2.state.completed_agents →
      c1.state.current_step = c2.state.current_step →
      c1.state.leads_data.isSome = c2.state.leads_data.isSome →
      supervisor_node c1.state = supervisor_node c2.state) ∧
    (∀ (s : State) (extra : List Msg), (∃ m, Msg.human m ∈ s.messages) →
      supervisor_node { s with messages := s.messages ++ extra } = supervisor_node s) := by
  constructor
  · rintro c1 c2 ⟨m1, cl1, ns1, hr1⟩ ⟨m2, cl2, ns2, hr2⟩ hfh hca hcs hld
    have hok1 : c1.state.leads_data ≠ some "" :=
      run_preserves (fun o c hc => leads_ok_step o c hc) hr1
        (by simp [initConfig, run_team_query_init])
    have hok2 : c2.state.leads_data ≠ some "" :=
      run_preserves (fun o c hc => leads_ok_step o c hc) hr2
        (by simp [initConfig, run_team_query_init])
    simp only [supervisor_node]
    rw [hfh, hca, hcs, pyTruthy_eq_isSome hok1, pyTruthy_eq_isSome hok2, hld]
  · rintro s extra hex
    simp only [supervisor_node]
    rw [firstHuman_append extra hex]

/-- Claim C9 witness: appending a later assistant message to a concrete
reachable log leaves the supervisor decision unchanged. -/
theorem claim9_witness :
    supervisor_node { run_team_query_init ("show customers") none with
      messages := (run_team_query_init ("show customers") none).messages ++ [Msg.ai ("note")] } =
      supervisor_node (run_team_query_init ("show customers") none) :=
  claim9_routing_determinism.2 (run_team_query_init ("show customers") none)
    [Msg.ai ("note")] ⟨"show customers", by decide⟩

/-- Claim C10: a screened plan and validated query whose execution
returns zero rows produce an update whose leads_data is None - not an
empty serialized row list - with needs_clarification false and
is_complete false; and the dataviz node on any state without tabular
data returns the fixed no-data update, so downstream a zero-row success
is indistinguishable from no query having run. -/
theorem claim10_zero_rows (p q : String) (e : String → ExecResult) (s : State)
    (h1 : (detect_invalid_response (pyStripStr p)).1 = false)
    (h2 : (("CANNOT_ANSWER").data).isPrefixOf (up (pyStripStr p)) = false)
    (h3 : (detect_invalid_response (pyStripStr q)).1 = false)
    (h4 : (validate_sql (extract_sql (pyStripStr q))).1 = true)
    (h5 : e (extract_sql (pyStripStr q)) = ExecResult.ok []) :
    (sql_agent_node p q e s).leads_data = some none ∧
    (sql_agent_node p q e s).needs_clarification = some false ∧
    (sql_agent_node p q e s).is_complete = some false ∧
    (∀ (t : String) (s2 : State), s2.leads_data = none →
      dataviz_agent_node t s2 =
        { messages := [Msg.ai ("[Data Viz Agent]\nNo data available. Please query data first.")],
          is_complete := some true }) := by
  have heq : sql_agent_node p q e s =
      successUpdate (pyStripStr p) (extract_sql (pyStripStr q)) []
        (vizKeywordsSql.any fun w => containsSub w.data (low (sqlWorkingInput s))) := by
    simp [sql_agent_node, h1, h2, h3, h4, h5]
  refine ⟨by rw [heq]; rfl, by rw [heq]; rfl, by rw [heq]; rfl, ?_⟩
  intro t s2 hld
  simp [dataviz_agent_node, pyTruthy, hld]

/-- Claim C10 witness: a concrete zero-row execution writes leads_data
as None with both flags false. -/
theorem claim10_witness :
    (sql_agent_node (emptyResultOracle.plan) (emptyResultOracle.sqlText)
        (emptyResultOracle.exec) (run_team_query_init ("show customers") none)).leads_data =
      some none :=
  (claim10_zero_rows (emptyResultOracle.plan) (emptyResultOracle.sqlText)
    (emptyResultOracle.exec) (run_team_query_init ("show customers") none)
    (by decide) (by decide) (by decide) (by decide) rfl).1
